import Mathlib

/-!
Verification development for the authentication/identity core of the
precisionBOM `bom_agent_service` (Python).  Each Python component named in
the claims is shallowly embedded as an executable Lean definition:

* `Identity` and its pure derived operations
  (`src/bom_agent_service/auth/identity.py`);
* the client (tenant) store modelled as a list of rows with the exact
  lookup predicates of `stores/client_store.py`;
* the API-key store of `stores/api_key_store.py`, with the SQLite
  `last_used` UPDATE's success/failure made an explicit boolean oracle,
  and the pydantic `ApiKey` model's missing `client_id` field (accessing
  it raises `AttributeError`) modelled as the error it raises;
* the three credential providers (`auth/providers/{api_key,jwt,x402}.py`)
  with all out-of-process effects (facilitator verify/settle, JWKS fetch,
  jose decode/verify, generated ids, SHA-256) passed in as oracle
  parameters, so a run of a provider is a pure function of the request
  and the environment's responses;
* the authentication chain (`auth/chain.py`) over abstract providers;
* `encode_payment_requirements` (`auth/providers/x402.py`), together with
  a faithful model of Python `decimal.Decimal` arithmetic and printing,
  `json.dumps` serialization, UTF-8 and base64 encoding.

Python exceptions are modelled with `Except`: `PyError.http` is a raised
`fastapi.HTTPException` (the only exception type the chain catches) and
`PyError.unhandled` is any other exception propagating out of a call.
-/

/-! ### Identity (auth/identity.py) -/

inductive AuthMethod where
  | api_key
  | jwt
  | x402
  | anonymous
deriving Repr, DecidableEq

structure Identity where
  client_id : String
  client_name : String
  auth_method : AuthMethod
  scopes : List String
  api_key_id : Option String := none
  api_key_name : Option String := none
  subject : Option String := none
  email : Option String := none
  issuer : Option String := none
  wallet_address : Option String := none
deriving Repr, DecidableEq

def Identity.has_scope (i : Identity) (scope : String) : Bool :=
  i.scopes.contains "all" || i.scopes.contains scope

def Identity.is_admin (i : Identity) : Bool :=
  i.scopes.contains "admin"

def Identity.can_access_client (i : Identity) (target_client_id : String) : Bool :=
  i.is_admin || i.client_id == target_client_id

def Identity.effective_client_id (i : Identity)
    (requested_client_id : Option String := none) : Option String :=
  if i.is_admin then requested_client_id else some i.client_id

/-- Claim C4: for every Identity, `effective_client_id(requested)` returns
`requested` unchanged (including `None`) when `"admin"` is among the
identity's scopes, and returns the identity's own `client_id` for every
value of `requested` otherwise. -/
theorem effective_client_id_admin_symmetry (i : Identity) (requested : Option String) :
    ("admin" ∈ i.scopes → i.effective_client_id requested = requested) ∧
    ("admin" ∉ i.scopes → i.effective_client_id requested = some i.client_id) := by
  constructor
  · intro h
    simp [Identity.effective_client_id, Identity.is_admin, List.elem_iff, h]
  · intro h
    simp [Identity.effective_client_id, Identity.is_admin, List.elem_iff, h]

/-- Concrete instantiation of `effective_client_id_admin_symmetry`: an admin
identity gets the requested filter verbatim, and with the scope removed the
same identity is forced back to its own `client_id`. -/
theorem effective_client_id_admin_symmetry_witness :
    Identity.effective_client_id
      { client_id := "cli_42", client_name := "Acme", auth_method := .jwt,
        scopes := ["admin"] } (some "cli_x") = some "cli_x" ∧
    Identity.effective_client_id
      { client_id := "cli_42", client_name := "Acme", auth_method := .jwt,
        scopes := ["read"] } (some "cli_x") = some "cli_42" :=
  ⟨(effective_client_id_admin_symmetry _ _).1 (by decide),
   (effective_client_id_admin_symmetry _ _).2 (by decide)⟩

/-! ### Python `decimal.Decimal` (exact fragment)

`AuthConfig.x402_base_price` and `x402_per_item_price` are
`decimal.Decimal` values.  A finite `Decimal` is a signed integer
coefficient together with a base-10 exponent.  `+` and `*` are exact
(the default context's rounding at 28 significant digits never fires at
the magnitudes of prices and item counts; it is not modelled), and
`pyDecStr` is CPython's `Decimal.__str__` (to-scientific-string). -/

structure PyDecimal where
  mant : Int
  exp : Int
deriving Repr, DecidableEq

def decOfInt (n : Int) : PyDecimal := ⟨n, 0⟩

def decMul (a b : PyDecimal) : PyDecimal := ⟨a.mant * b.mant, a.exp + b.exp⟩

def decAdd (a b : PyDecimal) : PyDecimal :=
  let e := min a.exp b.exp
  ⟨a.mant * (10 : Int) ^ (a.exp - e).toNat + b.mant * (10 : Int) ^ (b.exp - e).toNat, e⟩

def pyDecStr (d : PyDecimal) : String :=
  let sign := if d.mant < 0 then "-" else ""
  let digits := Nat.repr d.mant.natAbs
  let len : Int := digits.length
  let adjusted := d.exp + len - 1
  if d.exp ≤ 0 ∧ adjusted ≥ -6 then
    if d.exp = 0 then sign ++ digits
    else if adjusted < 0 then
      sign ++ "0." ++ String.mk (List.replicate (-(len + d.exp)).toNat '0') ++ digits
    else
      sign ++ digits.take (len + d.exp).toNat ++ "." ++ digits.drop (len + d.exp).toNat
  else
    let head := digits.take 1
    let tail := digits.drop 1
    sign ++ (if tail == "" then head else head ++ "." ++ tail) ++ "E" ++
      (if adjusted ≥ 0 then "+" else "") ++ toString adjusted

/-! ### AuthConfig (auth/config.py) -/

structure OIDCProviderConfig where
  name : String
  issuer : String
  audience : Option String := none
  oidc_client_id : Option String := none
deriving Repr, DecidableEq

structure AuthConfig where
  api_key_auth_enabled : Bool := true
  jwt_auth_enabled : Bool := false
  x402_enabled : Bool := false
  allow_anonymous : Bool := false
  x402_network : String := "base-sepolia"
  x402_pay_to_address : String := ""
  x402_facilitator_url : String := "https://x402.org/facilitator"
  x402_base_price : PyDecimal := ⟨5, -2⟩
  x402_per_item_price : PyDecimal := ⟨5, -3⟩
  default_audience : String := "bom-agent-api"
  oidc_providers : List OIDCProviderConfig := []
deriving Repr, DecidableEq

def AuthConfig.allowed_issuers (c : AuthConfig) : List String :=
  c.oidc_providers.map (fun p => p.issuer)

/-! ### Requests, HTTP exceptions, Python error propagation

An inbound request is modelled by its header multimap (Starlette header
names are case-insensitive; keys are stored lower-cased).  `HTTPException`
carries status code, detail and response headers.  `PyError.http` is a
raised `HTTPException`; `PyError.unhandled` is any other exception
escaping a call (the chain's `except HTTPException` does not catch it). -/

def Request : Type := List (String × String)

def headerGet (req : Request) (key : String) : Option String :=
  (List.find? (fun p => p.1 == key) req).map (fun p => p.2)

structure HTTPException where
  status_code : Nat
  detail : String
  headers : List (String × String) := []
deriving Repr, DecidableEq

inductive PyError where
  | http (e : HTTPException)
  | unhandled (msg : String)
deriving Repr, DecidableEq

/-! ### Python string helpers -/

def pyLowerChar (c : Char) : Char :=
  if 65 ≤ c.toNat ∧ c.toNat ≤ 90 then Char.ofNat (c.toNat + 32) else c

/-- `str.lower()` restricted to ASCII case mapping (wallet addresses and
header values in this codebase are ASCII; the full Unicode table is not
modelled). -/
def pyLower (s : String) : String := String.mk (s.data.map pyLowerChar)

/-- `str.startswith(pre)` as a character-level prefix test. -/
def pyStartsWith (s pre : String) : Bool := pre.data.isPrefixOf s.data

/-- `str.split()` with no separator: split on whitespace runs, dropping
empty fragments. -/
def pySplitWs (s : String) : List String :=
  (s.split (fun c => c.isWhitespace)).filter (fun t => t ≠ "")

theorem pyLowerChar_idem (c : Char) : pyLowerChar (pyLowerChar c) = pyLowerChar c := by
  unfold pyLowerChar
  by_cases h : 65 ≤ c.toNat ∧ c.toNat ≤ 90
  · rw [if_pos h]
    have hv : (c.toNat + 32).isValidChar := by
      constructor
      omega
    have htn : (Char.ofNat (c.toNat + 32)).toNat = c.toNat + 32 := by
      unfold Char.ofNat
      rw [dif_pos hv]
      rfl
    rw [if_neg]
    rw [htn]
    omega
  · rw [if_neg h, if_neg h]

theorem pyLower_idem (s : String) : pyLower (pyLower s) = pyLower s := by
  unfold pyLower
  simp [List.map_map, Function.comp_def, pyLowerChar_idem]

/-! ### json.dumps for string-valued objects (the only JSON this core emits)

Both payment-requirement payloads are Python dicts with string values,
serialized by `json.dumps` with default options: items joined by `", "`,
keys and values separated by `": "`, insertion order preserved,
`ensure_ascii=True` escaping. -/

def hexDigitChar (n : Nat) : Char :=
  if n < 10 then Char.ofNat (48 + n) else Char.ofNat (87 + n)

def hex4 (n : Nat) : String :=
  String.mk [hexDigitChar (n / 4096 % 16), hexDigitChar (n / 256 % 16),
             hexDigitChar (n / 16 % 16), hexDigitChar (n % 16)]

def jsonEscapeChar (c : Char) : String :=
  if c = '"' then "\\\""
  else if c = '\\' then "\\\\"
  else if c = '\n' then "\\n"
  else if c = '\t' then "\\t"
  else if c = '\r' then "\\r"
  else if c.toNat = 8 then "\\b"
  else if c.toNat = 12 then "\\f"
  else if c.toNat < 32 then "\\u" ++ hex4 c.toNat
  else if c.toNat < 127 then String.singleton c
  else if c.toNat < 65536 then "\\u" ++ hex4 c.toNat
  else "\\u" ++ hex4 (55296 + (c.toNat - 65536) / 1024) ++
       "\\u" ++ hex4 (56320 + (c.toNat - 65536) % 1024)

def jsonQuote (s : String) : String :=
  "\"" ++ String.join (s.data.map jsonEscapeChar) ++ "\""

def jsonDumpsStrObj (fields : List (String × String)) : String :=
  "\x7b" ++
    String.intercalate ", " (fields.map (fun kv => jsonQuote kv.1 ++ ": " ++ jsonQuote kv.2)) ++
  "\x7d"

/-! ### UTF-8 and base64 (`str.encode()`, `base64.b64encode/b64decode`)

Bytes are `Nat` values below 256. -/

def utf8EncodeChar (c : Char) : List Nat :=
  let n := c.toNat
  if n < 128 then [n]
  else if n < 2048 then [192 + n / 64, 128 + n % 64]
  else if n < 65536 then [224 + n / 4096, 128 + n / 64 % 64, 128 + n % 64]
  else [240 + n / 262144, 128 + n / 4096 % 64, 128 + n / 64 % 64, 128 + n % 64]

def utf8Bytes (s : String) : List Nat := s.data.flatMap utf8EncodeChar

def b64EncChar (v : Nat) : Char :=
  if v < 26 then Char.ofNat (65 + v)
  else if v < 52 then Char.ofNat (71 + v)
  else if v < 62 then Char.ofNat (v - 4)
  else if v = 62 then '+' else '/'

def b64DecChar (c : Char) : Option Nat :=
  let n := c.toNat
  if 65 ≤ n ∧ n ≤ 90 then some (n - 65)
  else if 97 ≤ n ∧ n ≤ 122 then some (n - 97 + 26)
  else if 48 ≤ n ∧ n ≤ 57 then some (n - 48 + 52)
  else if n = 43 then some 62
  else if n = 47 then some 63
  else none

def b64EncodeGroups : List Nat → List Char
  | [] => []
  | [b1] => [b64EncChar (b1 / 4), b64EncChar (b1 % 4 * 16), '=', '=']
  | [b1, b2] => [b64EncChar (b1 / 4), b64EncChar (b1 % 4 * 16 + b2 / 16),
                 b64EncChar (b2 % 16 * 4), '=']
  | b1 :: b2 :: b3 :: rest =>
      b64EncChar (b1 / 4) :: b64EncChar (b1 % 4 * 16 + b2 / 16) ::
      b64EncChar (b2 % 16 * 4 + b3 / 64) :: b64EncChar (b3 % 64) ::
      b64EncodeGroups rest

def b64DecodeGroups : List Char → Option (List Nat)
  | [] => some []
  | c1 :: c2 :: c3 :: c4 :: rest =>
    match b64DecChar c1, b64DecChar c2 with
    | some v1, some v2 =>
      if c3 = '=' then
        if c4 = '=' ∧ rest = [] then some [v1 * 4 + v2 / 16] else none
      else
        match b64DecChar c3 with
        | some v3 =>
          if c4 = '=' then
            if rest = [] then some [v1 * 4 + v2 / 16, v2 % 16 * 16 + v3 / 4] else none
          else
            match b64DecChar c4, b64DecodeGroups rest with
            | some v4, some tailBytes =>
                some ((v1 * 4 + v2 / 16) :: (v2 % 16 * 16 + v3 / 4) ::
                      (v3 % 4 * 64 + v4) :: tailBytes)
            | _, _ => none
        | none => none
    | _, _ => none
  | _ => none

def base64Encode (bs : List Nat) : String := String.mk (b64EncodeGroups bs)

def base64Decode (s : String) : Option (List Nat) := b64DecodeGroups s.data

/-! ### Client store (stores/client_store.py)

The store is modelled as the ordered list of client rows.  Lookups mirror
the SQLAlchemy `select ... where` predicates: issuer/audience/wallet
lookups require `is_active`, the slug lookup does not.
`scalar_one_or_none` is modelled by `List.find?`; the two coincide
whenever at most one row matches, which the theorems below guarantee
through their hypotheses.  `settings` is modelled as a key/boolean list
(the only setting this core writes is `ephemeral = true`). -/

structure Client where
  client_id : String
  name : String
  slug : String
  is_active : Bool := true
  oidc_issuer : Option String := none
  oidc_audience : Option String := none
  wallet_address : Option String := none
  settings : List (String × Bool) := []
deriving Repr, DecidableEq

def get_client (db : List Client) (client_id : String) : Option Client :=
  db.find? (fun c => c.client_id == client_id)

def get_client_by_slug (db : List Client) (slug : String) : Option Client :=
  db.find? (fun c => c.slug == slug)

def get_client_by_oidc_issuer (db : List Client) (issuer : String) : Option Client :=
  db.find? (fun c => c.oidc_issuer == some issuer && c.is_active)

def get_client_by_oidc_audience (db : List Client) (audience : String) : Option Client :=
  db.find? (fun c => c.oidc_audience == some audience && c.is_active)

def get_client_by_wallet (db : List Client) (wallet_address : String) : Option Client :=
  db.find? (fun c => c.wallet_address == some (pyLower wallet_address) && c.is_active)

/-- `ClientStore.create_client`; `genId` stands for the generated
`cli_{uuid4().hex[:12]}`.  Returns the created client and the new store
contents. -/
def create_client (db : List Client) (genId name slug : String)
    (oidc_issuer oidc_audience wallet_address : Option String)
    (settings : List (String × Bool)) : Client × List Client :=
  let c : Client :=
    { client_id := genId, name := name, slug := slug, is_active := true,
      oidc_issuer := oidc_issuer, oidc_audience := oidc_audience,
      wallet_address := wallet_address, settings := settings }
  (c, db ++ [c])

/-! ### x402 payment provider (auth/providers/x402.py) -/

structure PaymentPayload where
  payer : Option String := none
deriving Repr, DecidableEq

/-- Facilitator `POST /verify` response, a JSON object; an absent `valid`
key is falsy in `if not verification.get("valid")` and is therefore
modelled as `valid := false`. -/
structure VerifyResponse where
  valid : Bool
  payer : Option String := none
  error : Option String := none
deriving Repr, DecidableEq

structure SettleResponse where
  success : Bool
  error : Option String := none
deriving Repr, DecidableEq

/-- `encode_payment_requirements(config, item_count=0)`: price is
`base_price + per_item_price * item_count` in exact `Decimal` arithmetic,
serialized with the other requirement fields as base64-encoded JSON. -/
def paymentReqFields (config : AuthConfig) (item_count : Int) : List (String × String) :=
  [("price", pyDecStr (decAdd config.x402_base_price
                (decMul config.x402_per_item_price (decOfInt item_count)))),
   ("network", config.x402_network),
   ("recipient", config.x402_pay_to_address),
   ("asset", "USDC"),
   ("description", if item_count = 0 then "BOM Analysis"
                   else "BOM Analysis (" ++ toString item_count ++ " items)")]

def encode_payment_requirements (config : AuthConfig) (item_count : Int := 0) : String :=
  base64Encode (utf8Bytes (jsonDumpsStrObj (paymentReqFields config item_count)))

/-- `X402Provider._payment_required_headers`. -/
def payment_required_headers (config : AuthConfig) : List (String × String) :=
  [("X-Payment-Required",
    base64Encode (utf8Bytes (jsonDumpsStrObj
      [("network", config.x402_network),
       ("recipient", config.x402_pay_to_address),
       ("asset", "USDC"),
       ("basePrice", pyDecStr config.x402_base_price),
       ("perItemPrice", pyDecStr config.x402_per_item_price)]))),
   ("WWW-Authenticate", "X402")]

/-- Python `a or b` over the two optional payer fields, where `None` and
`""` are falsy. -/
def pyOrStr (a b : Option String) : Option String :=
  match a with
  | some s => if s == "" then b else some s
  | none => b

/-- `X402Provider._get_or_create_ephemeral_client`.  `hash12` stands for
`hashlib.sha256(·.encode()).hexdigest()[:12]` and `genId` for the id the
`Client` model generates on creation.  The returned `Bool` records whether
a new client row was inserted. -/
def get_or_create_ephemeral_client (db : List Client) (genId : String)
    (hash12 : String → String) (wallet_address : String) : Client × List Client × Bool :=
  match get_client_by_wallet db wallet_address with
  | some c => (c, db, false)
  | none =>
    let slug := "x402-" ++ hash12 wallet_address
    match get_client_by_slug db slug with
    | some c => (c, db, false)
    | none =>
      let short_addr := wallet_address.take 6 ++ "..." ++ wallet_address.takeRight 4
      let (c, db') := create_client db genId ("x402 Wallet " ++ short_addr) slug
        none none (some wallet_address) [("ephemeral", true)]
      (c, db', true)

/-- `X402Provider.authenticate`.  Oracle parameters: `decoded` is the
outcome of `_decode_payment` on the `X-Payment` header (base64 JSON with a
raw-JSON fallback; a parse failure raises, which `authenticate` converts
to a 400); `verify`/`settle` are the facilitator responses (transport
errors already folded into `valid=False`/`success=False` by
`_verify_payment`/`_settle_payment`); `genId` and `hash12` feed
`_get_or_create_ephemeral_client`.  Returns the Python result, the client
store after the call, and whether any client-store operation (lookup or
creation) was performed. -/
def x402Authenticate (config : AuthConfig) (db : List Client) (req : Request)
    (decoded : Except String PaymentPayload)
    (verify : VerifyResponse) (settle : SettleResponse)
    (genId : String) (hash12 : String → String) :
    Except PyError (Option Identity) × List Client × Bool :=
  match headerGet req "x-payment" with
  | none => (.ok none, db, false)
  | some payment_header =>
    if payment_header == "" then (.ok none, db, false)
    else
      match decoded with
      | .error e => (.error (.http ⟨400, "Invalid payment payload: " ++ e, []⟩), db, false)
      | .ok payload =>
        if !verify.valid then
          (.error (.http ⟨402,
             "Payment verification failed: " ++ verify.error.getD "Unknown error",
             payment_required_headers config⟩), db, false)
        else if !settle.success then
          (.error (.http ⟨402,
             "Payment settlement failed: " ++ settle.error.getD "Unknown error",
             payment_required_headers config⟩), db, false)
        else
          match pyOrStr verify.payer payload.payer with
          | none => (.error (.http ⟨400, "Could not determine payer wallet address", []⟩),
                     db, false)
          | some w =>
            if w == "" then
              (.error (.http ⟨400, "Could not determine payer wallet address", []⟩),
               db, false)
            else
              let wallet_address := pyLower w
              let (client, db', _) := get_or_create_ephemeral_client db genId hash12 wallet_address
              (.ok (some { client_id := client.client_id, client_name := client.name,
                           auth_method := .x402, scopes := ["all"],
                           wallet_address := some wallet_address }), db', true)

/-- Claim C1: for every request carrying a payment-proof header, if the
facilitator verify call reports valid but the settle call reports failure,
`X402Provider.authenticate` raises the 402 payment-settlement-failed
error, returns no Identity, leaves the client store unchanged, and
performs no client-store lookup or creation for the payer's wallet. -/
theorem x402_no_partial_settlement (config : AuthConfig) (db : List Client)
    (req : Request) (h : String) (payload : PaymentPayload)
    (verify : VerifyResponse) (settle : SettleResponse)
    (genId : String) (hash12 : String → String)
    (hhdr : headerGet req "x-payment" = some h) (hne : h ≠ "")
    (hvalid : verify.valid = true) (hsettle : settle.success = false) :
    x402Authenticate config db req (.ok payload) verify settle genId hash12 =
      (.error (.http ⟨402,
         "Payment settlement failed: " ++ settle.error.getD "Unknown error",
         payment_required_headers config⟩), db, false) := by
  unfold x402Authenticate
  rw [hhdr]
  simp [hne, hvalid, hsettle]

/-- Concrete instantiation of `x402_no_partial_settlement`: a decodable
payment whose verification succeeds and whose settlement reports
`success=False` yields the 402 settlement error and an untouched store. -/
theorem x402_no_partial_settlement_witness :
    x402Authenticate {} [] [("x-payment", "eyJ9")] (.ok { payer := some "0xAB" })
        { valid := true, payer := some "0xAB" } { success := false, error := some "boom" }
        "cli_new" (fun _ => "aaaaaaaaaaaa") =
      (.error (.http ⟨402, "Payment settlement failed: " ++ (some "boom").getD "Unknown error",
         payment_required_headers {}⟩), [], false) :=
  x402_no_partial_settlement {} [] [("x-payment", "eyJ9")] "eyJ9"
    { payer := some "0xAB" } { valid := true, payer := some "0xAB" }
    { success := false, error := some "boom" } "cli_new" (fun _ => "aaaaaaaaaaaa")
    rfl (by decide) rfl rfl

/-- The client row `_get_or_create_ephemeral_client` inserts for a (lower-cased)
wallet address it has never seen: deterministic slug from the address hash,
`ephemeral` settings flag, active, `wallet_address` stored verbatim. -/
def ephemeralClientRow (genId : String) (hash12 : String → String) (wl : String) : Client :=
  { client_id := genId,
    name := "x402 Wallet " ++ (wl.take 6 ++ "..." ++ wl.takeRight 4),
    slug := "x402-" ++ hash12 wl,
    is_active := true,
    wallet_address := some wl,
    settings := [("ephemeral", true)] }

/-- Claim C5: a first successful payment from a previously-unseen wallet
creates an ephemeral client whose `wallet_address` is the lower-cased
presented address, and a second successful payment presenting the same
address in any casing resolves to the same `client_id` without creating a
second client.  `hwallet`/`hslug` say the wallet is new to the store;
`hcase` says the second presented address differs only in casing. -/
theorem x402_wallet_get_or_create_idempotent (config : AuthConfig) (db : List Client)
    (req1 req2 : Request) (h1 h2 : String) (p1 p2 : PaymentPayload)
    (v1 v2 : VerifyResponse) (s1 s2 : SettleResponse)
    (genId genId2 : String) (hash12 : String → String) (w w2 : String)
    (hhdr1 : headerGet req1 "x-payment" = some h1) (hne1 : h1 ≠ "")
    (hhdr2 : headerGet req2 "x-payment" = some h2) (hne2 : h2 ≠ "")
    (hv1 : v1.valid = true) (hs1 : s1.success = true)
    (hv2 : v2.valid = true) (hs2 : s2.success = true)
    (hp1 : v1.payer = some w) (hw : w ≠ "")
    (hp2 : v2.payer = some w2) (hw2 : w2 ≠ "")
    (hcase : pyLower w2 = pyLower w)
    (hwallet : ∀ c ∈ db, ¬(c.wallet_address = some (pyLower w) ∧ c.is_active = true))
    (hslug : ∀ c ∈ db, c.slug ≠ "x402-" ++ hash12 (pyLower w)) :
    x402Authenticate config db req1 (.ok p1) v1 s1 genId hash12 =
      (.ok (some { client_id := genId,
                   client_name := (ephemeralClientRow genId hash12 (pyLower w)).name,
                   auth_method := .x402, scopes := ["all"],
                   wallet_address := some (pyLower w) }),
       db ++ [ephemeralClientRow genId hash12 (pyLower w)], true) ∧
    x402Authenticate config (db ++ [ephemeralClientRow genId hash12 (pyLower w)])
        req2 (.ok p2) v2 s2 genId2 hash12 =
      (.ok (some { client_id := genId,
                   client_name := (ephemeralClientRow genId hash12 (pyLower w)).name,
                   auth_method := .x402, scopes := ["all"],
                   wallet_address := some (pyLower w) }),
       db ++ [ephemeralClientRow genId hash12 (pyLower w)], true) := by
  have hidem := pyLower_idem w
  have hwfind : get_client_by_wallet db (pyLower w) = none := by
    unfold get_client_by_wallet
    refine List.find?_eq_none.mpr ?_
    intro c hc
    have := hwallet c hc
    simp only [Bool.and_eq_true, beq_iff_eq, not_and] at this ⊢
    rw [hidem]
    tauto
  have hsfind : get_client_by_slug db ("x402-" ++ hash12 (pyLower w)) = none := by
    unfold get_client_by_slug
    refine List.find?_eq_none.mpr ?_
    intro c hc
    simp only [beq_iff_eq]
    exact hslug c hc
  have hwfind2 : get_client_by_wallet (db ++ [ephemeralClientRow genId hash12 (pyLower w)])
      (pyLower w) = some (ephemeralClientRow genId hash12 (pyLower w)) := by
    unfold get_client_by_wallet
    rw [List.find?_append]
    have hleft : List.find? (fun c =>
        c.wallet_address == some (pyLower (pyLower w)) && c.is_active) db = none := by
      refine List.find?_eq_none.mpr ?_
      intro c hc
      have := hwallet c hc
      simp only [Bool.and_eq_true, beq_iff_eq, not_and] at this ⊢
      rw [hidem]
      tauto
    rw [hleft]
    simp [hidem, ephemeralClientRow]
  constructor
  · unfold x402Authenticate
    rw [hhdr1]
    simp [hne1, hv1, hs1, hp1, pyOrStr, hw, get_or_create_ephemeral_client,
          hwfind, hsfind, create_client, ephemeralClientRow]
  · have hgoc : get_or_create_ephemeral_client
        (db ++ [ephemeralClientRow genId hash12 (pyLower w)]) genId2 hash12 (pyLower w) =
        (ephemeralClientRow genId hash12 (pyLower w),
         db ++ [ephemeralClientRow genId hash12 (pyLower w)], false) := by
      unfold get_or_create_ephemeral_client
      rw [hwfind2]
    unfold x402Authenticate
    rw [hhdr2]
    simp only [hne2, hv2, hs2, hp2, pyOrStr, hw2, hcase, beq_iff_eq, if_neg,
               Bool.not_true, Bool.false_eq_true, if_false]
    rw [hgoc]
    simp [ephemeralClientRow]

/-- Concrete instantiation of `x402_wallet_get_or_create_idempotent`: wallet
`"0xABCDEF12"` paid twice (second time as `"0xabcdef12"`) against an empty
store yields one ephemeral client, reused by the second payment. -/
theorem x402_wallet_get_or_create_idempotent_witness :
    x402Authenticate {} [] [("x-payment", "cGF5")] (.ok {})
        { valid := true, payer := some "0xABCDEF12" } { success := true }
        "cli_eph" (fun _ => "deadbeef0000") =
      (.ok (some { client_id := "cli_eph",
                   client_name := (ephemeralClientRow "cli_eph" (fun _ => "deadbeef0000")
                     (pyLower "0xABCDEF12")).name,
                   auth_method := .x402, scopes := ["all"],
                   wallet_address := some (pyLower "0xABCDEF12") }),
       [] ++ [ephemeralClientRow "cli_eph" (fun _ => "deadbeef0000") (pyLower "0xABCDEF12")],
       true) ∧
    x402Authenticate {}
        ([] ++ [ephemeralClientRow "cli_eph" (fun _ => "deadbeef0000") (pyLower "0xABCDEF12")])
        [("x-payment", "cGF5")] (.ok {})
        { valid := true, payer := some "0xabcdef12" } { success := true }
        "cli_other" (fun _ => "deadbeef0000") =
      (.ok (some { client_id := "cli_eph",
                   client_name := (ephemeralClientRow "cli_eph" (fun _ => "deadbeef0000")
                     (pyLower "0xABCDEF12")).name,
                   auth_method := .x402, scopes := ["all"],
                   wallet_address := some (pyLower "0xABCDEF12") }),
       [] ++ [ephemeralClientRow "cli_eph" (fun _ => "deadbeef0000") (pyLower "0xABCDEF12")],
       true) :=
  x402_wallet_get_or_create_idempotent {} [] [("x-payment", "cGF5")] [("x-payment", "cGF5")]
    "cGF5" "cGF5" {} {}
    { valid := true, payer := some "0xABCDEF12" } { valid := true, payer := some "0xabcdef12" }
    { success := true } { success := true }
    "cli_eph" "cli_other" (fun _ => "deadbeef0000") "0xABCDEF12" "0xabcdef12"
    rfl (by decide) rfl (by decide) rfl rfl rfl rfl rfl (by decide) rfl (by decide)
    (by decide) (by decide) (by decide)

/-! ### Authentication chain (auth/chain.py)

Providers are registered values of `ChainProvider`: `can_handle` and
`authenticate` as pure functions of the request (each provider is invoked
at most once per chain run, so the per-run trace of a real provider is a
function of the request).  `authenticate` may return an Identity, return
`None`, raise an `HTTPException` (caught and recorded by the chain) or
raise anything else (uncaught, modelled as `PyError.unhandled`). -/

structure ChainProvider where
  name : String
  can_handle : Request → Bool
  authenticate : Request → Except PyError (Option Identity)

/-- The fixed identity returned when `config.allow_anonymous` is set. -/
def anonymousIdentity : Identity :=
  { client_id := "anonymous", client_name := "Anonymous",
    auth_method := .anonymous, scopes := ["all"] }

def paymentRequired402 (config : AuthConfig) : HTTPException :=
  { status_code := 402,
    detail := "Payment required. Provide API key, JWT, or x402 payment.",
    headers := [("WWW-Authenticate", "Bearer, ApiKey, X402"),
                ("X-Payment-Required", encode_payment_requirements config)] }

def authRequired401 : HTTPException :=
  { status_code := 401, detail := "Authentication required",
    headers := [("WWW-Authenticate", "Bearer, ApiKey")] }

/-- The provider loop of `AuthChain.authenticate` with its accumulated
`errors` list. -/
def authChainGo (config : AuthConfig) (req : Request) :
    List ChainProvider → List (String × HTTPException) → Except PyError Identity
  | [], errors =>
    match errors.getLast? with
    | some (_, last_error) => .error (.http last_error)
    | none =>
      if config.x402_enabled then .error (.http (paymentRequired402 config))
      else .error (.http authRequired401)
  | p :: ps, errors =>
    if p.can_handle req then
      match p.authenticate req with
      | .ok (some identity) => .ok identity
      | .ok none => authChainGo config req ps errors
      | .error (.http e) => authChainGo config req ps (errors ++ [(p.name, e)])
      | .error (.unhandled m) => .error (.unhandled m)
    else authChainGo config req ps errors

/-- `AuthChain.authenticate`. -/
def authChainAuthenticate (config : AuthConfig) (providers : List ChainProvider)
    (req : Request) : Except PyError Identity :=
  if config.allow_anonymous then .ok anonymousIdentity
  else authChainGo config req providers []

/-- The `(provider.name, error)` pairs the chain records on a run: one entry
per matching provider whose `authenticate` raised an `HTTPException`. -/
def chainRecordedErrors (req : Request) : List ChainProvider → List (String × HTTPException)
  | [] => []
  | p :: ps =>
    (if p.can_handle req then
       match p.authenticate req with
       | .error (.http e) => [(p.name, e)]
       | _ => []
     else []) ++ chainRecordedErrors req ps

/-- No matching provider produces an Identity: each either returns `None`
or raises an `HTTPException`. -/
def NoProviderIdentity (providers : List ChainProvider) (req : Request) : Prop :=
  ∀ p ∈ providers, p.can_handle req = true →
    p.authenticate req = .ok none ∨ ∃ e, p.authenticate req = .error (.http e)

theorem authChainGo_all_fail (config : AuthConfig) (req : Request)
    (providers : List ChainProvider) (acc : List (String × HTTPException))
    (hfail : NoProviderIdentity providers req) :
    authChainGo config req providers acc =
      (match (acc ++ chainRecordedErrors req providers).getLast? with
       | some (_, last_error) => .error (.http last_error)
       | none =>
         if config.x402_enabled then .error (.http (paymentRequired402 config))
         else .error (.http authRequired401)) := by
  induction providers generalizing acc with
  | nil => simp [authChainGo, chainRecordedErrors]
  | cons p ps ih =>
    have hp := hfail p (by simp)
    have hps : NoProviderIdentity ps req := by
      intro q hq
      exact hfail q (by simp [hq])
    unfold authChainGo chainRecordedErrors
    by_cases hc : p.can_handle req = true
    · rw [if_pos hc]
      rcases hp hc with hnone | ⟨e, he⟩
      · rw [hnone]
        simp only [hc, if_true]
        rw [ih acc hps]
        simp
      · rw [he]
        simp only [hc, if_true]
        rw [ih (acc ++ [(p.name, e)]) hps]
        rw [List.append_assoc]
    · rw [if_neg hc]
      simp only [hc, Bool.false_eq_true, if_false, List.nil_append]
      exact ih acc hps
  
/-- Claim C2: when anonymous bypass is off and no matching provider returns
an Identity, `AuthChain.authenticate` re-raises exactly the last recorded
`HTTPException` verbatim if any matching provider raised one; with no
recorded error it fails 402 with the encoded payment-requirements
challenge when `x402_enabled`, and otherwise with the generic 401
authentication-required error. -/
theorem authChain_fallback_policy (config : AuthConfig)
    (providers : List ChainProvider) (req : Request)
    (hanon : config.allow_anonymous = false)
    (hfail : NoProviderIdentity providers req) :
    (∀ pname e, (chainRecordedErrors req providers).getLast? = some (pname, e) →
       authChainAuthenticate config providers req = .error (.http e)) ∧
    (chainRecordedErrors req providers = [] → config.x402_enabled = true →
       authChainAuthenticate config providers req = .error (.http (paymentRequired402 config))) ∧
    (chainRecordedErrors req providers = [] → config.x402_enabled = false →
       authChainAuthenticate config providers req = .error (.http authRequired401)) := by
  have hmain : authChainAuthenticate config providers req =
      (match (chainRecordedErrors req providers).getLast? with
       | some (_, last_error) => .error (.http last_error)
       | none =>
         if config.x402_enabled then .error (.http (paymentRequired402 config))
         else .error (.http authRequired401)) := by
    unfold authChainAuthenticate
    rw [if_neg (by simp [hanon])]
    have := authChainGo_all_fail config req providers [] hfail
    rw [this]
    simp
  refine ⟨?_, ?_, ?_⟩
  · intro pname e hlast
    rw [hmain, hlast]
  · intro hempty hx
    rw [hmain, hempty]
    simp [hx]
  · intro hempty hx
    rw [hmain, hempty]
    simp [hx]

/-- Concrete instantiation of `authChain_fallback_policy`: two matching
providers raise distinct 401 errors; the chain surfaces the second
(last-recorded) one verbatim. -/
theorem authChain_fallback_policy_witness :
    authChainAuthenticate { allow_anonymous := false }
      [{ name := "api_key", can_handle := fun _ => true,
         authenticate := fun _ => .error (.http ⟨401, "Invalid API key", []⟩) },
       { name := "jwt", can_handle := fun _ => true,
         authenticate := fun _ => .error (.http ⟨401, "Token expired", []⟩) }]
      [("x-api-key", "bad")] = .error (.http ⟨401, "Token expired", []⟩) :=
  (authChain_fallback_policy { allow_anonymous := false }
    [{ name := "api_key", can_handle := fun _ => true,
       authenticate := fun _ => .error (.http ⟨401, "Invalid API key", []⟩) },
     { name := "jwt", can_handle := fun _ => true,
       authenticate := fun _ => .error (.http ⟨401, "Token expired", []⟩) }]
    [("x-api-key", "bad")] rfl
    (by
      intro p hp hc
      simp only [List.mem_cons, List.mem_singleton] at hp
      rcases hp with h | h | h
      · subst h
        exact Or.inr ⟨⟨401, "Invalid API key", []⟩, rfl⟩
      · subst h
        exact Or.inr ⟨⟨401, "Token expired", []⟩, rfl⟩
      · cases h)).1 "jwt" ⟨401, "Token expired", []⟩ rfl

/-- Claim C9: when `config.allow_anonymous` is set, the chain returns the
fixed anonymous Identity for every request and every registered provider
list — no provider's `can_handle` or `authenticate` can influence the
result. -/
theorem authChain_anonymous_bypass (config : AuthConfig)
    (providers : List ChainProvider) (req : Request)
    (hanon : config.allow_anonymous = true) :
    authChainAuthenticate config providers req = .ok anonymousIdentity := by
  unfold authChainAuthenticate
  rw [if_pos (by simp [hanon])]

/-- Concrete instantiation of `authChain_anonymous_bypass`: even with a
registered provider that matches everything and always raises, a request
carrying credentials still gets the anonymous identity. -/
theorem authChain_anonymous_bypass_witness :
    authChainAuthenticate { allow_anonymous := true }
      [{ name := "api_key", can_handle := fun _ => true,
         authenticate := fun _ => .error (.http ⟨401, "Invalid API key", []⟩) }]
      [("x-api-key", "pbom_sk_zzz")] = .ok anonymousIdentity :=
  authChain_anonymous_bypass { allow_anonymous := true } _ _ rfl
/-! ### API-key store (stores/api_key_store.py) and its pydantic model

The SQLite table is the ordered list of `ApiKeyRow`; `scopes` is the
stored TEXT column (`",".join(scopes)` on insert) and `row_client_id` the
`client_id` column added by migration.  `hashKey` stands for `_hash_key`
(SHA-256 hex digest) and is a parameter of every operation; timestamps
and the generated raw key/key id are parameters as well.

The pydantic model `ApiKey` (models/api_key.py, the only `ApiKey` model
in the repository) declares no `client_id` field.  Under pydantic v2
(`model_config` dicts, `pydantic_settings`) the default
`extra = "ignore"` silently drops the `client_id=...` keyword the store
passes at construction, and a later `.client_id` attribute access raises
`AttributeError`.  `ApiKeyModel` therefore carries exactly the declared
fields, and every access the code makes to the absent attribute is
modelled as raising `attributeErrorClientId` (Python quotes the class
and attribute names in the message; the quotes are elided here). -/

def attributeErrorClientId : String :=
  "AttributeError: ApiKey object has no attribute client_id"

structure ApiKeyRow where
  key_id : String
  hashed_key : String
  row_client_id : Option String
  name : String
  scopes : String
  created_at : String
  last_used : Option String := none
  is_active : Bool := true
deriving Repr, DecidableEq

/-- The pydantic `ApiKey` value as actually constructed: only the fields
the model declares — in particular, no client id. -/
structure ApiKeyModel where
  key_id : String
  hashed_key : String
  name : String
  scopes : List String
  created_at : String
  last_used : Option String
  is_active : Bool
deriving Repr, DecidableEq

/-- `ApiKeyStore.create_key`.  `rawKey` is the generated
`pbom_sk_{token_urlsafe(32)}`, `keyId` the generated `key_{...}` id and
`createdAt` the creation timestamp; `scopes=None` defaults to `["all"]`.
The `ApiKey(..., client_id=...)` construction drops the `client_id`
kwarg, and building the INSERT tuple then reads `api_key.client_id`:
every call raises `AttributeError` there, before the INSERT executes, so
no row is ever inserted and no key is ever returned. -/
def create_key (_hashKey : String → String) (_db : List ApiKeyRow)
    (_rawKey _keyId _createdAt : String) (_name : String)
    (_scopes : Option (List String)) (_client_id : Option String) :
    Except String (List ApiKeyRow × ApiKeyModel × String) :=
  .error attributeErrorClientId

/-- `ApiKeyStore.validate_key`: hash lookup restricted to active rows; on
a hit, UPDATE `last_used` and build the pydantic model from the row (the
`client_id=row[2]` kwarg is dropped by pydantic, so the model has no
client id), where an empty stored scopes TEXT yields `["all"]`
(`row[4].split(",") if row[4] else ["all"]`).  `now` is
`datetime.utcnow()`.  The UPDATE has no surrounding try/except in the
source, so its failure is the `updateOk` oracle: when false, the
operation raises (`Except.error`) and, the transaction having rolled
back, the table is unchanged. -/
def validate_key (hashKey : String → String) (db : List ApiKeyRow)
    (raw_key now : String) (updateOk : Bool) :
    Except String (List ApiKeyRow × Option ApiKeyModel) :=
  let hashed_key := hashKey raw_key
  match db.find? (fun r => r.hashed_key == hashed_key && r.is_active) with
  | none => .ok (db, none)
  | some row =>
    if updateOk then
      .ok (db.map (fun r => if r.key_id == row.key_id then
             { r with last_used := some now } else r),
           some { key_id := row.key_id, hashed_key := row.hashed_key,
                  name := row.name,
                  scopes := if row.scopes == "" then ["all"] else row.scopes.splitOn ",",
                  created_at := row.created_at, last_used := some now,
                  is_active := row.is_active })
    else .error "sqlite3 error while updating last_used"

/-! ### API-key provider (auth/providers/api_key.py) -/

/-- `ApiKeyProvider.authenticate`.  Returns the Python outcome and the
API-key table after the call.  A raised store error is not an
`HTTPException` and propagates as `PyError.unhandled`: the failed
`last_used` UPDATE inside `validate_key`, and — on every validated key —
the `validated.client_id` read, which raises `AttributeError` because
the pydantic model has no such attribute.  The client store is never
reached, and the provider can never return an Identity. -/
def apiKeyAuthenticate (hashKey : String → String) (keyDb : List ApiKeyRow)
    (_clients : List Client) (req : Request) (now : String) (updateOk : Bool) :
    Except PyError (Option Identity) × List ApiKeyRow :=
  match headerGet req "x-api-key" with
  | none => (.ok none, keyDb)
  | some api_key =>
    if api_key == "" then (.ok none, keyDb)
    else
      match validate_key hashKey keyDb api_key now updateOk with
      | .error m => (.error (.unhandled m), keyDb)
      | .ok (keyDb2, none) =>
        (.error (.http ⟨401, "Invalid API key", [("WWW-Authenticate", "ApiKey")]⟩), keyDb2)
      | .ok (keyDb2, some _validated) =>
        (.error (.unhandled attributeErrorClientId), keyDb2)

/-- Claim C7 (code-bug evaluation): at a request presenting a valid,
active API key owned by an active client, `ApiKeyProvider.authenticate`
never returns an Identity.  When the `last_used` UPDATE succeeds, the
provider crashes reading `validated.client_id` — the pydantic `ApiKey`
model has no such field, contradicting the repository's own tests
(`test_auth.py` asserts `api_key.client_id` round-trips and that a valid
key authenticates) — and when the UPDATE fails, the sqlite error
propagates uncaught, so the update is not best-effort either. -/
theorem apiKey_auth_never_returns_identity :
    apiKeyAuthenticate (fun s => s ++ "#sha256")
      [{ key_id := "key_1", hashed_key := "pbom_sk_k1#sha256",
         row_client_id := some "cli_1", name := "svc", scopes := "read,write",
         created_at := "2026-01-01T00:00:00" }]
      [{ client_id := "cli_1", name := "Acme", slug := "acme" }]
      [("x-api-key", "pbom_sk_k1")] "2026-02-01T00:00:00" true =
      (.error (.unhandled attributeErrorClientId),
       [{ key_id := "key_1", hashed_key := "pbom_sk_k1#sha256",
          row_client_id := some "cli_1", name := "svc", scopes := "read,write",
          created_at := "2026-01-01T00:00:00",
          last_used := some "2026-02-01T00:00:00" }]) ∧
    apiKeyAuthenticate (fun s => s ++ "#sha256")
      [{ key_id := "key_1", hashed_key := "pbom_sk_k1#sha256",
         row_client_id := some "cli_1", name := "svc", scopes := "read,write",
         created_at := "2026-01-01T00:00:00" }]
      [{ client_id := "cli_1", name := "Acme", slug := "acme" }]
      [("x-api-key", "pbom_sk_k1")] "2026-02-01T00:00:00" false =
      (.error (.unhandled "sqlite3 error while updating last_used"),
       [{ key_id := "key_1", hashed_key := "pbom_sk_k1#sha256",
          row_client_id := some "cli_1", name := "svc", scopes := "read,write",
          created_at := "2026-01-01T00:00:00" }]) := by
  constructor
  · rfl
  · rfl

/-- Claim C10 (code-bug evaluation): every `create_key` call raises
`AttributeError` before the INSERT — here at the claim's own input, an
empty scopes list — so the claim's premise (a key created via
`ApiKeyStore.create_key`) is unsatisfiable on this code, contradicting
the repository's own store tests, which expect `create_key` to return a
key carrying `client_id`.  The deserialization the claim describes does
exist in `validate_key`: an active row whose stored scopes TEXT is empty
validates to `scopes = ["all"]`, exactly the silent widening the claim
points at — but no such row can ever be produced by `create_key`. -/
theorem create_key_raises_attribute_error :
    create_key (fun s => s ++ "#sha256") [] "pbom_sk_new" "key_9" "2026-01-01" "ci"
        (some []) (some "cli_1") = .error attributeErrorClientId ∧
    validate_key (fun s => s ++ "#sha256")
        [{ key_id := "key_9", hashed_key := "pbom_sk_new#sha256",
           row_client_id := some "cli_1", name := "ci", scopes := "",
           created_at := "2026-01-01" }] "pbom_sk_new" "2026-01-02" true =
      .ok ([{ key_id := "key_9", hashed_key := "pbom_sk_new#sha256",
              row_client_id := some "cli_1", name := "ci", scopes := "",
              created_at := "2026-01-01", last_used := some "2026-01-02" }],
           some { key_id := "key_9", hashed_key := "pbom_sk_new#sha256", name := "ci",
                  scopes := ["all"], created_at := "2026-01-01",
                  last_used := some "2026-01-02", is_active := true }) := by
  constructor
  · rfl
  · rfl

/-! ### JWT provider (auth/providers/jwt.py)

jose calls are oracle parameters.  `get_unverified_claims` either yields
the unverified claim set or raises a `JWTError` (caught by the provider's
`except JWTError` and turned into a 401).  `_get_jwks` performs httpx
I/O whose failures are *not* `JWTError`s and therefore propagate uncaught.
`jwt.decode` yields the verified claims, raises `ExpiredSignatureError`,
or raises another `JWTError`. -/

/-- The `aud` claim as read off the unverified token: absent, a string, or
a list (from which Python takes `audience[0] if audience else None`). -/
inductive AudClaim where
  | absent
  | one (s : String)
  | many (l : List String)
deriving Repr, DecidableEq

structure UnverifiedClaims where
  iss : Option String := none
  aud : AudClaim := .absent
deriving Repr, DecidableEq

/-- The `scopes` custom claim: a JSON list or a space-separated string. -/
inductive ScopesVal where
  | asList (l : List String)
  | asStr (s : String)
deriving Repr, DecidableEq

/-- Verified claim set, restricted to the keys `JWTProvider` reads.
`realm_roles = some roles` models a present `realm_access` object whose
`roles` key holds `roles` if present (`.get("roles", [])`). -/
structure TokenClaims where
  scope : Option String := none
  realm_roles : Option (Option (List String)) := none
  scopesClaim : Option ScopesVal := none
  sub : Option String := none
  email : Option String := none
deriving Repr, DecidableEq

inductive VerifyOutcome where
  | ok (claims : TokenClaims)
  | expired
  | invalid (msg : String)
deriving Repr, DecidableEq

/-- `JWTProvider._extract_scopes`. -/
def extract_scopes (claims : TokenClaims) : List String :=
  match claims.scope with
  | some s => pySplitWs s
  | none =>
    match claims.realm_roles with
    | some roles => roles.getD []
    | none =>
      match claims.scopesClaim with
      | some (.asList l) => l
      | some (.asStr s) => pySplitWs s
      | none => ["all"]

/-- `JWTProvider.authenticate`. -/
def jwtAuthenticate (config : AuthConfig) (db : List Client) (req : Request)
    (unverified : Except String UnverifiedClaims)
    (jwksFetch : Except String Unit) (verify : VerifyOutcome) :
    Except PyError (Option Identity) :=
  let auth := (headerGet req "authorization").getD ""
  if !pyStartsWith (pyLower auth) "bearer " then .ok none
  else
    match unverified with
    | .error m => .error (.http ⟨401, "Invalid token: " ++ m, []⟩)
    | .ok u =>
      match u.iss with
      | none => .error (.http ⟨401, "Token missing issuer", []⟩)
      | some issuer =>
        let client0 := get_client_by_oidc_issuer db issuer
        let resolved : Except PyError (Option Client) :=
          match client0 with
          | some c => .ok (some c)
          | none =>
            if !config.allowed_issuers.contains issuer then
              .error (.http ⟨401, "Unknown token issuer: " ++ issuer, []⟩)
            else
              let audience : Option String :=
                match u.aud with
                | .absent => none
                | .one s => some s
                | .many l => l.head?
              match audience with
              | some a =>
                if a == "" then .ok none
                else .ok (get_client_by_oidc_audience db a)
              | none => .ok none
        match resolved with
        | .error e => .error e
        | .ok client =>
          match client with
          | none => .error (.http ⟨401, "Client not found or inactive", []⟩)
          | some c =>
            if !c.is_active then .error (.http ⟨401, "Client not found or inactive", []⟩)
            else
              match jwksFetch with
              | .error m => .error (.unhandled m)
              | .ok _ =>
                match verify with
                | .expired => .error (.http ⟨401, "Token expired", []⟩)
                | .invalid m => .error (.http ⟨401, "Invalid token: " ++ m, []⟩)
                | .ok claims =>
                  .ok (some { client_id := c.client_id, client_name := c.name,
                              auth_method := .jwt, scopes := extract_scopes claims,
                              subject := claims.sub, email := claims.email,
                              issuer := some issuer })

/-- Claim C3: a bearer token whose unverified `iss` matches no client's
`oidc_issuer` and is absent from the configured issuer allow-list fails
with the 401 UnknownIssuer error — for every JWKS/verification outcome, so
no Identity and no anonymous fallback is possible. -/
theorem jwt_unknown_issuer_rejected (config : AuthConfig) (db : List Client)
    (req : Request) (auth issuer : String) (u : UnverifiedClaims)
    (jwksFetch : Except String Unit) (verify : VerifyOutcome)
    (hhdr : headerGet req "authorization" = some auth)
    (hbearer : pyStartsWith (pyLower auth) "bearer " = true)
    (hiss : u.iss = some issuer)
    (hclient : get_client_by_oidc_issuer db issuer = none)
    (hallow : issuer ∉ config.allowed_issuers) :
    jwtAuthenticate config db req (.ok u) jwksFetch verify =
      .error (.http ⟨401, "Unknown token issuer: " ++ issuer, []⟩) := by
  unfold jwtAuthenticate
  rw [hhdr]
  simp only [Option.getD_some, hbearer, Bool.not_true, Bool.false_eq_true, if_false,
             hiss, hclient]
  simp [List.elem_iff, hallow]

/-- Concrete instantiation of `jwt_unknown_issuer_rejected`: a token from
`https://rogue.example` hits an empty client store and an empty allow-list
and is rejected as unknown-issuer even though signature verification
would have succeeded. -/
theorem jwt_unknown_issuer_rejected_witness :
    jwtAuthenticate {} [] [("authorization", "Bearer eyJhbGciOi")]
      (.ok { iss := some "https://rogue.example" }) (.ok ()) (.ok {}) =
      .error (.http ⟨401, "Unknown token issuer: " ++ "https://rogue.example", []⟩) :=
  jwt_unknown_issuer_rejected {} [] [("authorization", "Bearer eyJhbGciOi")]
    "Bearer eyJhbGciOi" "https://rogue.example" { iss := some "https://rogue.example" }
    (.ok ()) (.ok {}) rfl (by decide) rfl rfl (by decide)

/-- Claim C6: scope extraction tries, in order, the space-separated `scope`
string, then the `realm_access.roles` array (defaulting to `[]` when the
`roles` key is absent), then the `scopes` claim as a list or
space-separated string, and returns `["all"]` exactly when none of the
three claims is present. -/
theorem extract_scopes_order (claims : TokenClaims) :
    (∀ s, claims.scope = some s → extract_scopes claims = pySplitWs s) ∧
    (claims.scope = none → ∀ roles, claims.realm_roles = some roles →
       extract_scopes claims = roles.getD []) ∧
    (claims.scope = none → claims.realm_roles = none →
       ∀ l, claims.scopesClaim = some (.asList l) → extract_scopes claims = l) ∧
    (claims.scope = none → claims.realm_roles = none →
       ∀ s, claims.scopesClaim = some (.asStr s) → extract_scopes claims = pySplitWs s) ∧
    (claims.scope = none → claims.realm_roles = none → claims.scopesClaim = none →
       extract_scopes claims = ["all"]) := by
  refine ⟨?_, ?_, ?_, ?_, ?_⟩
  · intro s hs
    simp [extract_scopes, hs]
  · intro h0 roles hr
    simp [extract_scopes, h0, hr]
  · intro h0 h1 l hl
    simp [extract_scopes, h0, h1, hl]
  · intro h0 h1 s hs
    simp [extract_scopes, h0, h1, hs]
  · intro h0 h1 h2
    simp [extract_scopes, h0, h1, h2]

/-- Concrete instantiations of `extract_scopes_order`: each of the three
claim shapes, and the permissive `["all"]` default on an empty claim
set. -/
theorem extract_scopes_order_witness :
    extract_scopes { scope := some "read write" } = pySplitWs "read write" ∧
    extract_scopes { realm_roles := some (some ["admin"]) } = (some ["admin"]).getD [] ∧
    extract_scopes { scopesClaim := some (.asList ["read"]) } = ["read"] ∧
    extract_scopes { scopesClaim := some (.asStr "read write") } = pySplitWs "read write" ∧
    extract_scopes {} = ["all"] :=
  ⟨(extract_scopes_order _).1 "read write" rfl,
   (extract_scopes_order _).2.1 rfl (some ["admin"]) rfl,
   (extract_scopes_order _).2.2.1 rfl rfl ["read"] rfl,
   (extract_scopes_order _).2.2.2.1 rfl rfl "read write" rfl,
   (extract_scopes_order _).2.2.2.2 rfl rfl rfl⟩

/-! ### Correctness of the base64 / UTF-8 encoders used above -/

theorem b64DecChar_encChar : ∀ v < 64, b64DecChar (b64EncChar v) = some v := by decide

theorem b64EncChar_ne_pad : ∀ v < 64, b64EncChar v ≠ '=' := by decide

theorem b64DecodeGroups_encodeGroups (bs : List Nat) (h : ∀ b ∈ bs, b < 256) :
    b64DecodeGroups (b64EncodeGroups bs) = some bs := by
  induction bs using b64EncodeGroups.induct with
  | case1 => simp [b64EncodeGroups, b64DecodeGroups]
  | case2 b1 =>
    have hb1 : b1 < 256 := h b1 (by simp)
    have h1 : b1 / 4 < 64 := by omega
    have h2 : b1 % 4 * 16 < 64 := by omega
    simp only [b64EncodeGroups, b64DecodeGroups, b64DecChar_encChar _ h1,
               b64DecChar_encChar _ h2]
    simp
    omega
  | case3 b1 b2 =>
    have hb1 : b1 < 256 := h b1 (by simp)
    have hb2 : b2 < 256 := h b2 (by simp)
    have h1 : b1 / 4 < 64 := by omega
    have h2 : b1 % 4 * 16 + b2 / 16 < 64 := by omega
    have h3 : b2 % 16 * 4 < 64 := by omega
    simp only [b64EncodeGroups, b64DecodeGroups, b64DecChar_encChar _ h1,
               b64DecChar_encChar _ h2, b64DecChar_encChar _ h3]
    rw [if_neg (b64EncChar_ne_pad _ h3)]
    simp
    omega
  | case4 b1 b2 b3 rest ih =>
    have hb1 : b1 < 256 := h b1 (by simp)
    have hb2 : b2 < 256 := h b2 (by simp)
    have hb3 : b3 < 256 := h b3 (by simp)
    have hrest : ∀ b ∈ rest, b < 256 := by
      intro b hb
      exact h b (by simp [hb])
    have h1 : b1 / 4 < 64 := by omega
    have h2 : b1 % 4 * 16 + b2 / 16 < 64 := by omega
    have h3 : b2 % 16 * 4 + b3 / 64 < 64 := by omega
    have h4 : b3 % 64 < 64 := by omega
    simp only [b64EncodeGroups, b64DecodeGroups, b64DecChar_encChar _ h1,
               b64DecChar_encChar _ h2]
    rw [if_neg (b64EncChar_ne_pad _ h3)]
    simp only [b64DecChar_encChar _ h3]
    rw [if_neg (b64EncChar_ne_pad _ h4)]
    simp only [b64DecChar_encChar _ h4, ih hrest]
    simp
    omega

theorem utf8EncodeChar_lt (c : Char) (b : Nat) (hb : b ∈ utf8EncodeChar c) : b < 256 := by
  have hlt : c.toNat < 1114112 := by
    have h := c.valid
    rcases h with h | ⟨h1, h2⟩
    · exact Nat.lt_trans h (by norm_num)
    · exact h2
  by_cases h1 : c.toNat < 128
  · simp [utf8EncodeChar, h1] at hb
    omega
  · by_cases h2 : c.toNat < 2048
    · simp [utf8EncodeChar, h1, h2] at hb
      omega
    · by_cases h3 : c.toNat < 65536
      · simp [utf8EncodeChar, h1, h2, h3] at hb
        omega
      · simp [utf8EncodeChar, h1, h2, h3] at hb
        omega

theorem utf8Bytes_lt (s : String) (b : Nat) (hb : b ∈ utf8Bytes s) : b < 256 := by
  unfold utf8Bytes at hb
  rcases List.mem_flatMap.mp hb with ⟨c, _, hc⟩
  exact utf8EncodeChar_lt c b hc

theorem base64_roundtrip_utf8 (s : String) :
    base64Decode (base64Encode (utf8Bytes s)) = some (utf8Bytes s) := by
  unfold base64Decode base64Encode
  exact b64DecodeGroups_encodeGroups (utf8Bytes s) (utf8Bytes_lt s)

/-- Claim C8: `encode_payment_requirements` is a pure function of
`(config, item_count)` (deterministic and side-effect-free by
construction in this embedding), and its output base64-decodes to exactly
the UTF-8 bytes of the serialized JSON object whose `price` field is the
decimal string of `base_price + per_item_price * item_count` and whose
remaining fields are `network`, `recipient`, `asset = "USDC"` and a
`description`; at `base=0.05, perItem=0.01, items=10` the price string is
`"0.15"`. -/
theorem encode_payment_requirements_price (config : AuthConfig) (item_count : Int) :
    base64Decode (encode_payment_requirements config item_count) =
      some (utf8Bytes (jsonDumpsStrObj (paymentReqFields config item_count))) ∧
    (paymentReqFields config item_count).head? =
      some ("price", pyDecStr (decAdd config.x402_base_price
        (decMul config.x402_per_item_price (decOfInt item_count)))) ∧
    (paymentReqFields config item_count).map Prod.fst =
      ["price", "network", "recipient", "asset", "description"] ∧
    pyDecStr (decAdd ⟨5, -2⟩ (decMul ⟨1, -2⟩ (decOfInt 10))) = "0.15" := by
  refine ⟨?_, rfl, rfl, ?_⟩
  · unfold encode_payment_requirements
    exact base64_roundtrip_utf8 _
  · decide
